import Mathlib

/-!
Shallow embedding of the command-building, response-decoding and lifecycle
layer of the Rigol DP800 power-supply driver (dp800/dp800.py).

Each Python method that talks to the instrument is embedded as a pure Lean
function.  A method that only writes is modelled by the command string it
builds (suffix `_cmd`); a method that also validates is modelled as an
`Except` value whose `ok` payload is the list of commands written and whose
`error` payload is the exception message.  Response decoding is modelled by
a function from the raw reply string to the value the Python code returns.
The connect/disconnect lifecycle is modelled as explicit state passing over
a trace of written commands, with a fault-injection parameter standing for
a transport whose `write` may raise.
-/

namespace DP800

/-- Rendering of an optional Python value inside an f-string: Python renders
`None` as the literal text `None`, and any other value by its `str()` form,
which we carry as the string itself. -/
def pyStr : Option String → String
  | none => "None"
  | some s => s

/-- Helper for `splitComma`: structural scan of the character list,
accumulating the current field in reverse. -/
def splitCommaAux : List Char → List Char → List String
  | [], acc => [String.mk acc.reverse]
  | c :: cs, acc =>
    if c = ',' then String.mk acc.reverse :: splitCommaAux cs []
    else splitCommaAux cs (c :: acc)

/-- Python's `str.split(",")`: the comma-separated fields of a string, with
at least one (possibly empty) field always produced. -/
def splitComma (s : String) : List String := splitCommaAux s.data []

/-- Command built by `set_apply(channel, voltage, current)` (dp800.py lines
62-91).  The source guards the current segment with
`{voltage is not None} & {current is not None}`, a set intersection of two
singleton sets: it is non-empty (truthy) exactly when the two Booleans are
equal, which is faithfully `voltage.isSome == current.isSome`. -/
def set_apply_cmd (channel : Option Nat) (voltage current : Option String) : String :=
  let cmd := ":APPL "
  let cmd := match channel with
    | some n => cmd ++ "CH" ++ toString n ++ ","
    | none => cmd
  let cmd := match voltage with
    | some v => cmd ++ v
    | none => cmd
  if voltage.isSome == current.isSome then cmd ++ "," ++ pyStr current else cmd

/-- The `set_apply` method: it performs no validation and unconditionally
issues exactly one write (`self.instr.write(cmd)`); the `Except` layer
records that no code path raises. -/
def set_apply (channel : Option Nat) (voltage current : Option String) :
    Except String (List String) :=
  Except.ok [set_apply_cmd channel voltage current]

/-- Result of `get_apply` (dp800.py lines 93-136), tagging which conversion
the source applies to the raw reply: `asFloat` for the
channel-and-function branch (`float(self.instr.query(cmd))`), `asRaw` for
the warned function-only branch (the reply is returned unconverted), and
`asTuple` for the plain branch (`self.instr.query(cmd).split(",")`,
unpacked by the source into channel, rating, voltage, current). -/
inductive ApplyResp where
  | asFloat (raw : String)
  | asRaw (raw : String)
  | asTuple (fields : List String)
deriving DecidableEq

/-- The `get_apply` method (dp800.py lines 93-136), as a function of the raw
instrument reply.  The result triple is (a warning was raised, the query
commands issued, the returned value). -/
def get_apply (channel : Option Nat) (function : Option String) (reply : String) :
    Bool × List String × ApplyResp :=
  let cmd := ":APPL?"
  let cmd := match channel with
    | some n => cmd ++ " CH" ++ toString n
    | none => cmd
  if channel.isSome && function.isSome then
    (false, [cmd ++ "," ++ pyStr function], ApplyResp.asFloat reply)
  else if channel.isNone && function.isSome then
    (true, [cmd ++ "," ++ pyStr function], ApplyResp.asRaw reply)
  else
    (false, [cmd], ApplyResp.asTuple (splitComma reply))

/-- Error message raised by the two register setters for an out-of-range
value (dp800.py lines 292 and 437). -/
def rangeErrMsg (value : Int) : String :=
  "Value: " ++ toString value ++ " is out of range. Must be in range 0-255."

/-- The `set_standard_event_enable_register` method (dp800.py lines
279-292): writes `*ESE value` when `0 <= value <= 255`, otherwise raises
`ValueError` before any I/O. -/
def set_standard_event_enable_register (value : Int) : Except String (List String) :=
  if 0 ≤ value ∧ value ≤ 255 then Except.ok ["*ESE " ++ toString value]
  else Except.error (rangeErrMsg value)

/-- The `set_status_byte_enable_register` method (dp800.py lines 424-437):
writes `*SRE value` when `0 <= value <= 255`, otherwise raises `ValueError`
before any I/O. -/
def set_status_byte_enable_register (value : Int) : Except String (List String) :=
  if 0 ≤ value ∧ value ≤ 255 then Except.ok ["*SRE " ++ toString value]
  else Except.error (rangeErrMsg value)

/-- Command built by `set_output_enable(enable, channel)` (dp800.py lines
982-999).  The source appends `f" CH{channel},"` to the base `":OUTP "`,
which already ends in a space, so the channel form carries two spaces. -/
def set_output_enable_cmd (enable : Bool) (channel : Option Nat) : String :=
  let cmd := ":OUTP "
  let cmd := match channel with
    | some n => cmd ++ " CH" ++ toString n ++ ","
    | none => cmd
  if enable then cmd ++ "ON" else cmd ++ "OFF"

/-- Command sent by `get_output_enable(channel)` (dp800.py lines 1001-1023):
the base is the bare `":OUTP"` with no question mark. -/
def get_output_enable_cmd (channel : Option Nat) : String :=
  let cmd := ":OUTP"
  match channel with
  | some n => cmd ++ " CH" ++ toString n
  | none => cmd

/-- Reply decoding of `get_output_enable` (dp800.py lines 1017-1021):
`if enable == "ON": enable = True else: enable = False`. -/
def get_output_enable_decode (reply : String) : Bool :=
  if reply == "ON" then true else false

/-- Command sent by `get_ocp_enable(channel)` (dp800.py lines 713-731). -/
def get_ocp_enable_cmd (channel : Option Nat) : String :=
  let cmd := ":OUTP:OCP?"
  match channel with
  | some n => cmd ++ " CH" ++ toString n
  | none => cmd

/-- Reply decoding of `get_ocp_enable` (dp800.py lines 732-736). -/
def get_ocp_enable_decode (reply : String) : Bool :=
  if reply == "ON" then true else false

/-- Command sent by `get_ovp_enable(channel)` (dp800.py lines 856-874). -/
def get_ovp_enable_cmd (channel : Option Nat) : String :=
  let cmd := ":OUTP:OVP?"
  match channel with
  | some n => cmd ++ " CH" ++ toString n
  | none => cmd

/-- Reply decoding of `get_ovp_enable` (dp800.py lines 875-879). -/
def get_ovp_enable_decode (reply : String) : Bool :=
  if reply == "ON" then true else false

/-- Command sent by `get_option_installation_status` (dp800.py lines
354-365): the literal `"*OPT"`, with no question mark. -/
def get_option_installation_status_cmd : String := "*OPT"

/-- Command built by `set_voltage(voltage, channel)` (dp800.py lines
1102-1116): base `f":VOLT {voltage}"`, with `f":SOUR{channel}"` prepended
when a channel is given. -/
def set_voltage_cmd (voltage : String) (channel : Option Nat) : String :=
  let cmd := ":VOLT " ++ voltage
  match channel with
  | some n => ":SOUR" ++ toString n ++ cmd
  | none => cmd

/-- Command built by `measure(func, channel)` (dp800.py lines 598-603). -/
def measure_cmd (func : Option String) (channel : Option Nat) : String :=
  let cmd := ":MEAS"
  let cmd := match func with
    | some f => cmd ++ ":" ++ f
    | none => cmd
  let cmd := cmd ++ "?"
  match channel with
  | some n => cmd ++ " CH" ++ toString n
  | none => cmd

/-- The value `measure` returns: either a single raw reply field (a Python
`str`) or the list of raw comma-separated fields (a Python `list` of
`str`).  The source never converts the fields to numbers. -/
inductive MeasResult where
  | str (s : String)
  | list (ss : List String)
deriving DecidableEq

/-- Reply decoding of `measure` (dp800.py lines 604-608):
`values = self.instr.query(cmd).split(",")`, collapsed to the single
element when the split has length 1, with no numeric conversion. -/
def measure_decode (reply : String) : MeasResult :=
  match splitComma reply with
  | [v] => MeasResult.str v
  | vs => MeasResult.list vs

/-- Command sent by `set_local` (dp800.py lines 1248-1250). -/
def set_local_cmd : String := ":SYST:LOC"

/-- State of the instrument session as seen through the transport: the
commands written so far, and whether `instr.close()` has run. -/
structure TraceState where
  written : List String
  closed : Bool
deriving DecidableEq

/-- One transport write under fault injection: if the fault model `fail`
marks the command, the write raises (carrying the command and the state at
the moment of the raise, i.e. what had actually reached the instrument);
otherwise the command is appended to the trace. -/
def writeT (fail : String → Bool) (cmd : String) (s : TraceState) :
    Except (String × TraceState) TraceState :=
  if fail cmd then Except.error (cmd, s)
  else Except.ok { s with written := s.written ++ [cmd] }

/-- The `disconnect` method (dp800.py lines 51-56): a plain
`for channel in [1, 2, 3]` loop of output disables, then `set_local()`,
then `instr.close()`, with no exception handling anywhere — a raise in any
write propagates immediately, abandoning the rest of the loop and the
close. -/
def disconnect (fail : String → Bool) (s : TraceState) :
    Except (String × TraceState) TraceState := do
  let s ← [1, 2, 3].foldlM
    (fun s ch => writeT fail (set_output_enable_cmd false (some ch)) s) s
  let s ← writeT fail set_local_cmd s
  pure { s with closed := true }

/-- C1, counterexample.  With a transport on which the first output-disable
raises, `disconnect` propagates the exception with nothing yet written and
the session not closed: the remaining disables are not attempted and the
close step does not run, contradicting "the session always transitions to
closed". -/
theorem C1_counterexample :
    disconnect (fun c => c == ":OUTP  CH1,OFF") ⟨[], false⟩ =
      Except.error (":OUTP  CH1,OFF", ⟨[], false⟩) := by
  rfl

/-- C1, amended.  On a fault-free transport, `disconnect` issues exactly
three output-disable commands (channels 1, 2, 3, in order) before the
local-mode command, and only then closes; but `disconnect` has no
exception handling, so if one disable raises (here the channel-2 one), the
remaining disables are not attempted and the close step does not run — the
error propagates with only the earlier writes on the wire and the session
left open. -/
theorem C1_disconnect_sequence :
    disconnect (fun _ => false) ⟨[], false⟩ =
      Except.ok ⟨[":OUTP  CH1,OFF", ":OUTP  CH2,OFF", ":OUTP  CH3,OFF",
                  ":SYST:LOC"], true⟩
  ∧ disconnect (fun c => c == ":OUTP  CH2,OFF") ⟨[], false⟩ =
      Except.error (":OUTP  CH2,OFF", ⟨[":OUTP  CH1,OFF"], false⟩) :=
  ⟨rfl, rfl⟩

/-- C2, counterexample.  `set_apply(channel=2, voltage=None, current=1.0)`
does not raise: it issues the write `":APPL CH2,"`, silently dropping the
current value, contradicting "raises a ValidationError before any I/O". -/
theorem C2_counterexample :
    set_apply (some 2) none (some "1.0") = Except.ok [":APPL CH2,"] := by
  rfl

/-- C2, amended.  For every channel argument, calling `set_apply` with
voltage omitted and a non-None current raises no error: it issues exactly
one write in which the current value is silently dropped — `":APPL CH{n},"`
with a channel, `":APPL "` without. -/
theorem C2_current_only_dropped (n : Nat) (c : String) :
    set_apply (some n) none (some c) =
      Except.ok [":APPL CH" ++ toString n ++ ","]
  ∧ set_apply none none (some c) = Except.ok [":APPL "] := by
  constructor
  · simp only [set_apply, set_apply_cmd, Option.isSome, Except.ok.injEq,
      List.cons.injEq, and_true]
    apply String.ext
    simp [String.data_append]
  · rfl

/-- C3, counterexample.  A reply token outside the known set decodes to
`false` in all three boolean query operations — it is coerced to a default
rather than raising a ProtocolError (the source decoders have no error
path at all). -/
theorem C3_counterexample :
    get_ocp_enable_decode "GARBAGE" = false
  ∧ get_ovp_enable_decode "GARBAGE" = false
  ∧ get_output_enable_decode "GARBAGE" = false := by
  decide

/-- C3, amended.  For each boolean-decoding query operation, `"ON"` decodes
to `true` and `"OFF"` decodes to `false`, but every token other than
`"ON"` — including unrecognized ones — is coerced to `false`; no decode
error is ever raised. -/
theorem C3_bool_decode (s : String) :
    (get_ocp_enable_decode "ON" = true ∧ get_ocp_enable_decode "OFF" = false
     ∧ get_ovp_enable_decode "ON" = true ∧ get_ovp_enable_decode "OFF" = false
     ∧ get_output_enable_decode "ON" = true
     ∧ get_output_enable_decode "OFF" = false)
  ∧ (get_ocp_enable_decode s = true ↔ s = "ON")
  ∧ (get_ovp_enable_decode s = true ↔ s = "ON")
  ∧ (get_output_enable_decode s = true ↔ s = "ON") := by
  refine ⟨by decide, ?_, ?_, ?_⟩ <;>
    simp [get_ocp_enable_decode, get_ovp_enable_decode, get_output_enable_decode]

/-- C4.  For every integer v, both register setters raise a validation
error and issue no write when v is outside 0..255, and issue exactly the
single write carrying the command for v (`*ESE v` resp. `*SRE v`) when v
is within 0..255. -/
theorem C4_register_bounds (v : Int) :
    ((v < 0 ∨ 255 < v) →
      set_standard_event_enable_register v = Except.error (rangeErrMsg v)
      ∧ set_status_byte_enable_register v = Except.error (rangeErrMsg v))
  ∧ (0 ≤ v → v ≤ 255 →
      set_standard_event_enable_register v = Except.ok ["*ESE " ++ toString v]
      ∧ set_status_byte_enable_register v = Except.ok ["*SRE " ++ toString v]) := by
  constructor
  · intro h
    have hne : ¬ (0 ≤ v ∧ v ≤ 255) := by
      rcases h with h | h
      · exact fun hc => absurd hc.1 (not_le.mpr h)
      · exact fun hc => absurd hc.2 (not_le.mpr h)
    constructor <;>
      simp [set_standard_event_enable_register, set_status_byte_enable_register, hne]
  · intro h0 h255
    constructor <;>
      simp [set_standard_event_enable_register, set_status_byte_enable_register,
        h0, h255]

/-- C4, witness: instantiating the bounds theorem at 256, -1 and 10. -/
theorem C4_register_bounds_witness :
    set_standard_event_enable_register 256 = Except.error (rangeErrMsg 256)
  ∧ set_status_byte_enable_register (-1) = Except.error (rangeErrMsg (-1))
  ∧ set_standard_event_enable_register 10 = Except.ok ["*ESE " ++ toString (10 : Int)]
  ∧ set_status_byte_enable_register 10 = Except.ok ["*SRE " ++ toString (10 : Int)] :=
  ⟨((C4_register_bounds 256).1 (Or.inr (by decide))).1,
   ((C4_register_bounds (-1)).1 (Or.inl (by decide))).2,
   ((C4_register_bounds 10).2 (by decide) (by decide)).1,
   ((C4_register_bounds 10).2 (by decide) (by decide)).2⟩

/-- C5, counterexample.  `set_output_enable(True, channel=2)` renders as
`":OUTP  CH2,ON"` with two spaces between the mnemonic and the channel
token, not the claimed `":OUTP CH2,ON"`. -/
theorem C5_counterexample :
    set_output_enable_cmd true (some 2) = ":OUTP  CH2,ON"
  ∧ set_output_enable_cmd true (some 2) ≠ ":OUTP CH2,ON" := by
  decide

/-- C5, amended.  For every channel n, `set_voltage(v, channel=n)` renders
the scope-prefixed command `":SOUR{n}:VOLT {v}"`, while
`set_output_enable(true, channel=n)` renders the suffix-addressed command
`":OUTP  CH{n},ON"` (two spaces: the base `":OUTP "` plus a leading space
in the appended channel segment); the two addressing conventions are never
cross-applied between the source family and the output family. -/
theorem C5_addressing (n : Nat) (v : String) :
    set_voltage_cmd v (some n) = ":SOUR" ++ toString n ++ ":VOLT " ++ v
  ∧ set_output_enable_cmd true (some n) = ":OUTP  CH" ++ toString n ++ ",ON" := by
  constructor
  · apply String.ext
    simp [set_voltage_cmd, String.data_append]
  · apply String.ext
    simp [set_output_enable_cmd, String.data_append]

/-- C6.  For every channel n and voltage value v,
`set_apply(channel=n, voltage=v, current=None)` issues exactly one write,
`":APPL CH{n},{v}"`: the channel prefix segment `CH{n},` followed directly
by the voltage value, with no current segment appended after it. -/
theorem C6_apply_voltage_only (n : Nat) (v : String) :
    set_apply (some n) (some v) none =
      Except.ok [":APPL CH" ++ toString n ++ "," ++ v] := by
  simp only [set_apply, set_apply_cmd, Option.isSome, Except.ok.injEq,
    List.cons.injEq, and_true]
  apply String.ext
  simp [String.data_append]

/-- C7, code evaluation.  At reply `"5.0"` the `measure` decoder returns the
raw string `"5.0"` (a Python `str`), and at the 'ALL' reply
`"1.0,2.0,3.0"` it returns the list of raw strings — never floats, although
the method's own docstring declares `float or list of float`. -/
theorem C7_measure_returns_raw :
    measure_decode "5.0" = MeasResult.str "5.0"
  ∧ measure_decode "1.0,2.0,3.0" = MeasResult.list ["1.0", "2.0", "3.0"] :=
  ⟨rfl, rfl⟩

/-- C8, code evaluation.  `get_output_enable` and
`get_option_installation_status` both read a reply (they call `query`),
yet the commands they send — `":OUTP CH2"` / `":OUTP"` and `"*OPT"` —
carry no `?` suffix, unlike sibling queries such as `get_ocp_enable`'s
`":OUTP:OCP?"`. -/
theorem C8_query_missing_question_mark :
    get_output_enable_cmd (some 2) = ":OUTP CH2"
  ∧ (get_output_enable_cmd (some 2)).data.contains '?' = false
  ∧ get_output_enable_cmd none = ":OUTP"
  ∧ get_option_installation_status_cmd = "*OPT"
  ∧ get_option_installation_status_cmd.data.contains '?' = false
  ∧ (get_ocp_enable_cmd none).data.contains '?' = true
  ∧ (get_ovp_enable_cmd none).data.contains '?' = true
  ∧ (measure_cmd none none).data.contains '?' = true := by
  decide

/-- C9.  Calling `get_apply` with `function` set and `channel` omitted
raises a warning but still issues the query — `":APPL?,{function}"`, the
function token appended — exactly once, and returns the raw reply
unconverted. -/
theorem C9_get_apply_function_only (f reply : String) :
    get_apply none (some f) reply =
      (true, [":APPL?," ++ f], ApplyResp.asRaw reply) := by
  simp only [get_apply, pyStr, Option.isSome, Option.isNone, Bool.false_and,
    Bool.true_and, Bool.and_self, if_false, if_true, Bool.false_eq_true,
    ite_false, ite_true, Prod.mk.injEq, List.cons.injEq, and_true, true_and]
  apply String.ext
  simp [String.data_append]

/-- C10.  For every channel argument, `set_apply` with both voltage and
current omitted still issues a write ending in the spurious text `",None"`:
`":APPL CH{n},,None"` with a channel and `":APPL ,None"` without, because
the guard `{voltage is not None} & {current is not None}` is the non-empty
set `{False}` when both arguments are None. -/
theorem C10_apply_both_none (n : Nat) :
    set_apply (some n) none none =
      Except.ok [":APPL CH" ++ toString n ++ ",,None"]
  ∧ set_apply none none none = Except.ok [":APPL ,None"] := by
  constructor
  · simp only [set_apply, set_apply_cmd, pyStr, Option.isSome, Except.ok.injEq,
      List.cons.injEq, and_true]
    apply String.ext
    simp [String.data_append]
  · rfl

end DP800
